import Mathlib

/-!
Verification of the strip-controller logic in `src/vb-volume.py`
(class `VoiceMeeterTray`).

The external VoiceMeeter backend owns one channel strip with a mute flag,
two bus-routing flags `A1` and `A2`, and a gain value in dB.  The
controller reads and writes that strip through the handle `self.vm`.

Gain is modelled over `ℚ`: every gain constant in the program (`0.0`,
`-60.0`, the `±2.0` and `±4.0` steps, the preset levels, the scenario
values) is a small integer, exactly representable as a binary float, and
`max`/`min`/comparison on floats are exact, so the rational model agrees
with the Python float computation on all properties proved below.

A backend attribute access in Python either succeeds, is skipped because
`self.vm` is `None`, or raises an exception.  These are the three
constructors of `Backend`.  A controller operation that lets an exception
propagate to its caller is modelled as returning `Except.error`; a
silently skipped operation returns `Except.ok` with the state unchanged.
Tray-icon drawing, printing and the settings file are display/IO concerns
outside the strip state and are not part of the state carried here.
-/

/-- State of the single channel strip (`self.vm.strip[STRIP_INDEX]`)
owned by the external backend: mute flag, the two bus-routing flags
`A1` and `A2`, and the gain in dB. -/
structure ChannelStrip where
  mute : Bool
  A1 : Bool
  A2 : Bool
  gain : ℚ
deriving DecidableEq, Repr

/-- Exception raised by a backend strip attribute access. -/
inductive VMError where
  | attributeError
deriving DecidableEq, Repr

/-- The controller's view of the backend handle `self.vm`: the handle is
`None` (`disconnected`), or strip access succeeds and yields the current
strip state (`connected`), or strip access raises (`failing`). -/
inductive Backend where
  | disconnected
  | connected (strip : ChannelStrip)
  | failing
deriving DecidableEq, Repr

/-- The two output buses the controller toggles, the strings `'A1'` and
`'A2'` in the Python source. -/
inductive Bus where
  | A1
  | A2
deriving DecidableEq, Repr

/-- Embeds `VoiceMeeterTray.toggle_mute` (src/vb-volume.py:157-164): when
`self.vm` is `None` the body is skipped; otherwise the current mute flag
is read and its negation is written back.  The method contains no
`try`/`except`, so an exception raised by the strip access propagates to
the caller before any write happens.  The trailing `update_icon()` call
only redraws the tray icon and does not touch the strip. -/
def toggle_mute : Backend → Except VMError Backend
  | .disconnected => .ok .disconnected
  | .connected s => .ok (.connected { s with mute := !s.mute })
  | .failing => .error .attributeError

/-- Embeds `VoiceMeeterTray.toggle_bus` (src/vb-volume.py:166-172):
reads the named bus flag with `getattr` and writes its negation with
`setattr`; skipped when `self.vm` is `None`; no `try`/`except`. -/
def toggle_bus (bus : Bus) : Backend → Except VMError Backend
  | .disconnected => .ok .disconnected
  | .connected s =>
      match bus with
      | .A1 => .ok (.connected { s with A1 := !s.A1 })
      | .A2 => .ok (.connected { s with A2 := !s.A2 })
  | .failing => .error .attributeError

/-- Embeds `VoiceMeeterTray.change_gain` (src/vb-volume.py:174-180):
reads the current gain, computes `max(min(current + delta, 0.0), -60.0)`
and writes it back; skipped when `self.vm` is `None`; no `try`/`except`. -/
def change_gain (delta : ℚ) : Backend → Except VMError Backend
  | .disconnected => .ok .disconnected
  | .connected s => .ok (.connected { s with gain := max (min (s.gain + delta) 0) (-60) })
  | .failing => .error .attributeError

/-- Embeds `VoiceMeeterTray.set_gain` (src/vb-volume.py:182-188): writes
`max(min(value, 0.0), -60.0)`; skipped when `self.vm` is `None`; no
`try`/`except`.  The read of the current gain only feeds the log line. -/
def set_gain (value : ℚ) : Backend → Except VMError Backend
  | .disconnected => .ok .disconnected
  | .connected s => .ok (.connected { s with gain := max (min value 0) (-60) })
  | .failing => .error .attributeError

/-- Embeds `VoiceMeeterTray.get_current_gain` (src/vb-volume.py:190-194):
returns the strip gain, or `0.0` when `self.vm` is `None`; an exception
from the strip access propagates (no `try`/`except`). -/
def get_current_gain : Backend → Except VMError ℚ
  | .disconnected => .ok 0
  | .connected s => .ok s.gain
  | .failing => .error .attributeError

/-- Embeds `VoiceMeeterTray.is_muted` (src/vb-volume.py:196-200):
returns the strip mute flag, or `False` when `self.vm` is `None`; an
exception from the strip access propagates (no `try`/`except`). -/
def is_muted : Backend → Except VMError Bool
  | .disconnected => .ok false
  | .connected s => .ok s.mute
  | .failing => .error .attributeError

/-- Embeds `VoiceMeeterTray.is_bus_active` (src/vb-volume.py:202-206):
returns the named bus flag via `getattr`, or `False` when `self.vm` is
`None`; an exception from the strip access propagates. -/
def is_bus_active (bus : Bus) : Backend → Except VMError Bool
  | .disconnected => .ok false
  | .connected s =>
      match bus with
      | .A1 => .ok s.A1
      | .A2 => .ok s.A2
  | .failing => .error .attributeError

/-- Sequencing of `n` successive invocations of one controller operation
(repeated hotkey presses); a raised exception stops the sequence, as in
Python. -/
def applyN (f : Backend → Except VMError Backend) : Nat → Backend → Except VMError Backend
  | 0, b => .ok b
  | n + 1, b => (f b).bind (applyN f n)

/-- Embeds the dict `NUMPAD_SCAN_CODES` (src/vb-volume.py:15-26) as a
lookup: the Windows scan code of a numpad key maps to its digit label;
every other scan code is absent from the dict. -/
def NUMPAD_SCAN_CODES (sc : Nat) : Option Char :=
  if sc = 82 then some '0'
  else if sc = 79 then some '1'
  else if sc = 80 then some '2'
  else if sc = 81 then some '3'
  else if sc = 75 then some '4'
  else if sc = 76 then some '5'
  else if sc = 77 then some '6'
  else if sc = 71 then some '7'
  else if sc = 72 then some '8'
  else if sc = 73 then some '9'
  else none

/-- Kind of keyboard event delivered to the hook callback. -/
inductive EventType where
  | keyDown
  | keyUp
deriving DecidableEq, Repr

/-- The five controller operations a hotkey can dispatch to. -/
inductive KeyAction where
  | actMute
  | actA1
  | actA2
  | actGainDown
  | actGainUp
deriving DecidableEq, Repr

/-- Maps each hotkey action to the strip operation its handler branch
calls in `on_key_event` (src/vb-volume.py:286-305): numpad 0 calls
`toggle_mute`, 1 and 2 call `toggle_bus`, 3 calls `change_gain(-2.0)`,
6 calls `change_gain(2.0)`. -/
def dispatch : KeyAction → Backend → Except VMError Backend
  | .actMute => toggle_mute
  | .actA1 => toggle_bus .A1
  | .actA2 => toggle_bus .A2
  | .actGainDown => change_gain (-2)
  | .actGainUp => change_gain 2

/-- Embeds the hook callback `on_key_event` inside
`VoiceMeeterTray.setup_numpad_hotkeys` (src/vb-volume.py:273-305): a
non-key-down event is ignored, an event without Alt held is ignored, a
scan code outside `NUMPAD_SCAN_CODES` is ignored, and of the mapped
digits only `'0'`, `'1'`, `'2'`, `'3'` and `'6'` have a branch; the
function returns which controller action, if any, the event invokes. -/
def on_key_event (eventType : EventType) (altPressed : Bool) (scanCode : Nat) :
    Option KeyAction :=
  if eventType ≠ .keyDown then none
  else if !altPressed then none
  else
    match NUMPAD_SCAN_CODES scanCode with
    | none => none
    | some numpadKey =>
        if numpadKey = '0' then some .actMute
        else if numpadKey = '1' then some .actA1
        else if numpadKey = '2' then some .actA2
        else if numpadKey = '3' then some .actGainDown
        else if numpadKey = '6' then some .actGainUp
        else none

/-- Result of `create_icon_image`: a named PNG asset from the icons
folder, or the programmatic fallback icon drawn by
`create_fallback_icon` when the `try` block raises. -/
inductive IconImage where
  | file (name : String)
  | fallback (muted : Bool)
deriving DecidableEq, Repr

/-- Embeds `VoiceMeeterTray.create_icon_image` (src/vb-volume.py:87-124):
the body first reads both bus flags through `is_bus_active`, then picks
the asset name by the muted/route cascade; the whole body sits in a
`try`/`except` whose handler returns the fallback icon, so a raising
backend yields the fallback rather than an exception.  The asset load
itself (`Image.open`, resize) is file IO and is modelled as succeeding. -/
def create_icon_image (theme : String) (muted : Bool) (b : Backend) : IconImage :=
  match is_bus_active .A1 b, is_bus_active .A2 b with
  | .ok a1, .ok a2 =>
      if muted then .file ("muted" ++ theme ++ ".png")
      else if a1 && a2 then .file ("unmute" ++ theme ++ ".png")
      else if a1 && !a2 then .file ("headset" ++ theme ++ ".png")
      else if a2 && !a1 then .file ("speakers" ++ theme ++ ".png")
      else .file ("muted" ++ theme ++ ".png")
  | _, _ => .fallback muted

/-- C1: `change_gain` writes exactly the saturating clamp of
`current + delta` to `[-60, 0]`, and from any starting gain in
`[-60, 0]` and any delta the written value lies again in `[-60, 0]`. -/
theorem change_gain_clamps (s : ChannelStrip) (delta : ℚ)
    (h1 : -60 ≤ s.gain) (h2 : s.gain ≤ 0) :
    change_gain delta (.connected s) =
      .ok (.connected { s with gain := max (min (s.gain + delta) 0) (-60) }) ∧
    -60 ≤ max (min (s.gain + delta) 0) (-60) ∧
    max (min (s.gain + delta) 0) (-60) ≤ 0 :=
  ⟨rfl, le_max_right _ _, max_le (min_le_right _ _) (by norm_num)⟩

/-- Witness for `change_gain_clamps`: the spec scenario gain `-1.0`,
delta `+5.0`, clamped to the `0.0` ceiling. -/
theorem change_gain_clamps_witness :
    (-60 : ℚ) ≤ (-1 : ℚ) ∧ (-1 : ℚ) ≤ 0 ∧
    (change_gain 5 (.connected ⟨false, true, true, -1⟩) =
       .ok (.connected { mute := false, A1 := true, A2 := true,
                         gain := max (min ((-1 : ℚ) + 5) 0) (-60) }) ∧
     -60 ≤ max (min ((-1 : ℚ) + 5) 0) (-60) ∧
     max (min ((-1 : ℚ) + 5) 0) (-60) ≤ 0) :=
  ⟨by norm_num, by norm_num,
   change_gain_clamps ⟨false, true, true, -1⟩ 5 (by norm_num) (by norm_num)⟩

/-- C2: `set_gain` applies the same saturating clamp to an absolute
target: for every `v` the stored value is `max (min v 0) (-60)`, so
`set_gain 10` stores `0` and `set_gain (-100)` stores `-60`. -/
theorem set_gain_clamps (s : ChannelStrip) (v : ℚ) :
    set_gain v (.connected s) =
      .ok (.connected { s with gain := max (min v 0) (-60) }) ∧
    set_gain 10 (.connected s) = .ok (.connected { s with gain := 0 }) ∧
    set_gain (-100) (.connected s) = .ok (.connected { s with gain := -60 }) := by
  have h10 : max (min (10 : ℚ) 0) (-60) = 0 := by
    rw [min_eq_right (by norm_num : (0 : ℚ) ≤ 10),
        max_eq_left (by norm_num : (-60 : ℚ) ≤ 0)]
  have h100 : max (min (-100 : ℚ) 0) (-60) = -60 := by
    rw [min_eq_left (by norm_num : (-100 : ℚ) ≤ 0),
        max_eq_right (by norm_num : (-100 : ℚ) ≤ -60)]
  refine ⟨rfl, ?_, ?_⟩
  · show Except.ok (Backend.connected { s with gain := max (min (10 : ℚ) 0) (-60) }) = _
    rw [h10]
  · show Except.ok (Backend.connected { s with gain := max (min (-100 : ℚ) 0) (-60) }) = _
    rw [h100]

/-- Closed form for repeated `-2` gain steps: from an in-range gain `g`,
`n` calls of `change_gain (-2)` land on `max (g - 2 * n) (-60)`. -/
theorem applyN_change_gain (n : ℕ) :
    ∀ g : ℚ, -60 ≤ g → g ≤ 0 →
      applyN (change_gain (-2)) n (.connected ⟨false, false, false, g⟩) =
        .ok (.connected ⟨false, false, false, max (g - 2 * n) (-60)⟩) := by
  induction n with
  | zero =>
      intro g h1 h2
      have hg : max (g - 2 * ((0 : ℕ) : ℚ)) (-60) = g := by
        push_cast
        rw [mul_zero, sub_zero]
        exact max_eq_left h1
      rw [hg]
      rfl
  | succ n ih =>
      intro g h1 h2
      have hproj : (⟨false, false, false, g⟩ : ChannelStrip).gain = g := rfl
      have hmin : min (g + -2) 0 = g + -2 := min_eq_left (by linarith)
      have hcg : change_gain (-2) (.connected ⟨false, false, false, g⟩) =
          .ok (.connected ⟨false, false, false, max (g + -2) (-60)⟩) := by
        simp only [change_gain, hproj, hmin]
      have hstep :
          applyN (change_gain (-2)) (n + 1) (.connected ⟨false, false, false, g⟩) =
            applyN (change_gain (-2)) n
              (.connected ⟨false, false, false, max (g + -2) (-60)⟩) := by
        show (change_gain (-2) (.connected ⟨false, false, false, g⟩)).bind
              (applyN (change_gain (-2)) n) = _
        rw [hcg]
        rfl
      have hge : (-60 : ℚ) ≤ max (g + -2) (-60) := le_max_right _ _
      have hle : max (g + -2) (-60) ≤ 0 := max_le (by linarith) (by norm_num)
      have hfold : max (max (g + -2) (-60) - 2 * (n : ℚ)) (-60) =
          max (g - 2 * (((n + 1) : ℕ) : ℚ)) (-60) := by
        have hn : (0 : ℚ) ≤ (n : ℚ) := Nat.cast_nonneg n
        push_cast
        rcases le_total (g + -2) (-60) with h | h
        · have e1 : max (g + -2) (-60 : ℚ) = -60 := max_eq_right h
          have e2 : max ((-60 : ℚ) - 2 * (n : ℚ)) (-60) = -60 :=
            max_eq_right (by linarith)
          have e3 : max (g - 2 * ((n : ℚ) + 1)) (-60 : ℚ) = -60 :=
            max_eq_right (by linarith)
          rw [e1, e2, e3]
        · have e1 : max (g + -2) (-60 : ℚ) = g + -2 := max_eq_left h
          rw [e1]
          congr 1
          ring
      rw [hstep, ih _ hge hle, hfold]

/-- C4 counterexample: starting from gain `-10`, four calls of
`change_gain (-2)` leave the gain at `-18`, not at the floor `-60`
asserted by the claim. -/
theorem change_gain_scenario_counterexample :
    applyN (change_gain (-2)) 4 (.connected ⟨false, false, false, -10⟩) =
      .ok (.connected ⟨false, false, false, -18⟩) ∧
    applyN (change_gain (-2)) 4 (.connected ⟨false, false, false, -10⟩) ≠
      .ok (.connected ⟨false, false, false, -60⟩) := by
  have h := applyN_change_gain 4 (-10) (by norm_num) (by norm_num)
  have h18 : max ((-10 : ℚ) - 2 * ((4 : ℕ) : ℚ)) (-60) = -18 := by
    push_cast
    rw [show ((-10 : ℚ) - 2 * 4) = -18 by norm_num]
    exact max_eq_left (by norm_num)
  rw [h18] at h
  refine ⟨h, ?_⟩
  rw [h]
  simp only [Except.ok.injEq, Backend.connected.injEq, ChannelStrip.mk.injEq, ne_eq]
  norm_num

/-- C4 amended: starting from gain `-10`, one call of `change_gain (-2)`
yields `-12`; repeating the same call twenty-four more times (twenty-five
calls in total) reaches the floor `-60`; and one further call leaves the
gain at `-60`. -/
theorem change_gain_floor_scenario :
    applyN (change_gain (-2)) 1 (.connected ⟨false, false, false, -10⟩) =
      .ok (.connected ⟨false, false, false, -12⟩) ∧
    applyN (change_gain (-2)) 25 (.connected ⟨false, false, false, -10⟩) =
      .ok (.connected ⟨false, false, false, -60⟩) ∧
    applyN (change_gain (-2)) 26 (.connected ⟨false, false, false, -10⟩) =
      .ok (.connected ⟨false, false, false, -60⟩) := by
  have h1 := applyN_change_gain 1 (-10) (by norm_num) (by norm_num)
  have h25 := applyN_change_gain 25 (-10) (by norm_num) (by norm_num)
  have h26 := applyN_change_gain 26 (-10) (by norm_num) (by norm_num)
  have e1 : max ((-10 : ℚ) - 2 * ((1 : ℕ) : ℚ)) (-60) = -12 := by
    push_cast
    rw [show ((-10 : ℚ) - 2 * 1) = -12 by norm_num]
    exact max_eq_left (by norm_num)
  have e25 : max ((-10 : ℚ) - 2 * ((25 : ℕ) : ℚ)) (-60) = -60 := by
    push_cast
    rw [show ((-10 : ℚ) - 2 * 25) = -60 by norm_num]
    exact max_self _
  have e26 : max ((-10 : ℚ) - 2 * ((26 : ℕ) : ℚ)) (-60) = -60 := by
    push_cast
    rw [show ((-10 : ℚ) - 2 * 26) = -62 by norm_num]
    exact max_eq_right (by norm_num)
  rw [e1] at h1
  rw [e25] at h25
  rw [e26] at h26
  exact ⟨h1, h25, h26⟩

/-- C3 counterexample: with a non-null backend handle whose strip access
raises, `toggle_mute` propagates the exception to its caller — the
method body has no exception handler — contradicting the claim that no
exception escapes the operation. -/
theorem toggle_mute_raises_counterexample :
    toggle_mute .failing = .error .attributeError := rfl

/-- C3 amended: if the backend call raises during `toggle_mute`, the
exception propagates out of the operation and the write is skipped;
only when the backend handle is null is the operation a silent no-op,
and then a subsequent `is_muted` returns `false`. -/
theorem toggle_mute_error_propagation :
    toggle_mute .failing = .error .attributeError ∧
    toggle_mute .disconnected = .ok .disconnected ∧
    is_muted .disconnected = .ok false :=
  ⟨rfl, rfl, rfl⟩

/-- C5: with the backend available, `toggle_mute` writes the negation of
the mute flag it read, so applying it twice returns the strip to its
original state (involution). -/
theorem toggle_mute_involution (s : ChannelStrip) :
    toggle_mute (.connected s) = .ok (.connected { s with mute := !s.mute }) ∧
    (toggle_mute (.connected s)).bind toggle_mute = .ok (.connected s) := by
  refine ⟨rfl, ?_⟩
  cases s
  simp [toggle_mute, Except.bind]

/-- C6: `set_gain` is idempotent — on every backend state, applying
`set_gain v` twice yields the same result as applying it once. -/
theorem set_gain_idempotent (v : ℚ) (b : Backend) :
    (set_gain v b).bind (set_gain v) = set_gain v b := by
  cases b with
  | disconnected => rfl
  | failing => rfl
  | connected s =>
      have hle : max (min v 0) (-60 : ℚ) ≤ 0 :=
        max_le (min_le_right _ _) (by norm_num)
      have hge : (-60 : ℚ) ≤ max (min v 0) (-60) := le_max_right _ _
      simp [set_gain, Except.bind, min_eq_left hle, max_eq_left hge]

/-- C7: toggling one bus leaves every other strip field unchanged —
`toggle_bus A1` only negates `A1`, `toggle_bus A2` only negates `A2`,
and neither touches `mute` or `gain` (no cross-field coupling). -/
theorem toggle_bus_frame (s : ChannelStrip) :
    toggle_bus .A1 (.connected s) = .ok (.connected { s with A1 := !s.A1 }) ∧
    toggle_bus .A2 (.connected s) = .ok (.connected { s with A2 := !s.A2 }) ∧
    ({ s with A1 := !s.A1 } : ChannelStrip).A2 = s.A2 ∧
    ({ s with A1 := !s.A1 } : ChannelStrip).mute = s.mute ∧
    ({ s with A1 := !s.A1 } : ChannelStrip).gain = s.gain ∧
    ({ s with A2 := !s.A2 } : ChannelStrip).A1 = s.A1 ∧
    ({ s with A2 := !s.A2 } : ChannelStrip).mute = s.mute ∧
    ({ s with A2 := !s.A2 } : ChannelStrip).gain = s.gain :=
  ⟨rfl, rfl, rfl, rfl, rfl, rfl, rfl, rfl⟩

/-- C8: with a null backend handle, every read returns its falsy default
(`false`, `false`, `0`) and every write is a silent no-op that raises
nothing and changes nothing. -/
theorem backend_unavailable_defaults (bus : Bus) (delta v : ℚ) :
    is_muted .disconnected = .ok false ∧
    is_bus_active bus .disconnected = .ok false ∧
    get_current_gain .disconnected = .ok 0 ∧
    toggle_mute .disconnected = .ok .disconnected ∧
    toggle_bus bus .disconnected = .ok .disconnected ∧
    change_gain delta .disconnected = .ok .disconnected ∧
    set_gain v .disconnected = .ok .disconnected :=
  ⟨rfl, rfl, rfl, rfl, rfl, rfl, rfl⟩

/-- The hotkey callback on an Alt-held key-down event reduces to a plain
five-way scan-code table. -/
theorem on_key_event_eq (sc : Nat) :
    on_key_event .keyDown true sc =
      if sc = 82 then some .actMute
      else if sc = 79 then some .actA1
      else if sc = 80 then some .actA2
      else if sc = 81 then some .actGainDown
      else if sc = 77 then some .actGainUp
      else none := by
  by_cases h82 : sc = 82
  · subst h82; rfl
  by_cases h79 : sc = 79
  · subst h79; rfl
  by_cases h80 : sc = 80
  · subst h80; rfl
  by_cases h81 : sc = 81
  · subst h81; rfl
  by_cases h75 : sc = 75
  · subst h75; rfl
  by_cases h76 : sc = 76
  · subst h76; rfl
  by_cases h77 : sc = 77
  · subst h77; rfl
  by_cases h71 : sc = 71
  · subst h71; rfl
  by_cases h72 : sc = 72
  · subst h72; rfl
  by_cases h73 : sc = 73
  · subst h73; rfl
  simp only [on_key_event, NUMPAD_SCAN_CODES, if_neg h82, if_neg h79, if_neg h80,
    if_neg h81, if_neg h75, if_neg h76, if_neg h77, if_neg h71, if_neg h72, if_neg h73]
  rfl

/-- C9: exactly five Alt+numpad key-down combinations invoke a
controller operation — scan code 82 (numpad 0) toggles mute, 79 (numpad
1) toggles bus A1, 80 (numpad 2) toggles bus A2, 81 (numpad 3) adjusts
gain by `-2`, 77 (numpad 6) adjusts gain by `+2` — and no other scan
code, no event without Alt held, and no non-key-down event invokes any
operation. -/
theorem hotkey_bindings :
    dispatch .actMute = toggle_mute ∧
    dispatch .actA1 = toggle_bus .A1 ∧
    dispatch .actA2 = toggle_bus .A2 ∧
    dispatch .actGainDown = change_gain (-2) ∧
    dispatch .actGainUp = change_gain 2 ∧
    ∀ (et : EventType) (alt : Bool) (sc : Nat) (a : KeyAction),
      on_key_event et alt sc = some a ↔
        (et = .keyDown ∧ alt = true ∧
          ((sc = 82 ∧ a = .actMute) ∨ (sc = 79 ∧ a = .actA1) ∨
           (sc = 80 ∧ a = .actA2) ∨ (sc = 81 ∧ a = .actGainDown) ∨
           (sc = 77 ∧ a = .actGainUp))) := by
  refine ⟨rfl, rfl, rfl, rfl, rfl, ?_⟩
  intro et alt sc a
  cases et with
  | keyUp => simp [on_key_event]
  | keyDown =>
      cases alt with
      | false => simp [on_key_event]
      | true =>
          rw [on_key_event_eq]
          split_ifs <;> simp_all [eq_comm]

/-- C10: when the strip is not muted and neither bus is active,
`create_icon_image` falls back to the muted asset, the very image shown
when actually muted — the icon cannot distinguish the two situations. -/
theorem no_route_shows_muted_icon (theme : String) (s : ChannelStrip)
    (h1 : s.A1 = false) (h2 : s.A2 = false) :
    create_icon_image theme false (.connected s) =
      .file ("muted" ++ theme ++ ".png") ∧
    create_icon_image theme false (.connected s) =
      create_icon_image theme true (.connected s) := by
  simp [create_icon_image, is_bus_active, h1, h2]

/-- Witness for `no_route_shows_muted_icon`: the default theme and a
concrete unmuted strip with both routes off. -/
theorem no_route_shows_muted_icon_witness :
    (ChannelStrip.mk false false false (-5)).A1 = false ∧
    (ChannelStrip.mk false false false (-5)).A2 = false ∧
    (create_icon_image "" false (.connected ⟨false, false, false, -5⟩) =
       .file ("muted" ++ "" ++ ".png") ∧
     create_icon_image "" false (.connected ⟨false, false, false, -5⟩) =
       create_icon_image "" true (.connected ⟨false, false, false, -5⟩)) :=
  ⟨rfl, rfl, no_route_shows_muted_icon "" ⟨false, false, false, -5⟩ rfl rfl⟩
